import Mathlib

/-!
Verification of the Smart-Mouse-Trap firmware core: the node transport
(trap-node.ino, sendMessage and onDataSent), the fixed-layout event
message codec (the TrapMessage struct shared by node and gateway), the
node wake scheduler (trap-node.ino, setup), the reed-switch debounce
detector (checkTrapTriggered), and the gateway bridge (gateway firmware:
onDataReceive, forwardToMQTT, reconnectMQTT).

Machine integers are modelled as Nat with explicit bounds where the C
types are fixed-width.  The float field battery_voltage of TrapMessage is
modelled by its raw 32-bit representation (a Nat below 2 to the 32): the
firmware only ever memcpys that field byte for byte, it never computes
with it on the wire path, so the codec treats it as an opaque 4-byte
value.  Times are Nat ticks standing for milliseconds.
-/

namespace SmartTrap

/-! ## Event message codec

The C struct (identical in trap-node.ino and the gateway file):

  typedef struct \x7b
    uint8_t node_id;
    uint8_t event_type;
    uint32_t trap_count;
    float battery_voltage;
    uint8_t route_hops;
    uint32_t timestamp;
  \x7d TrapMessage;

On the ESP32 (little-endian, 4-byte alignment for uint32_t and float)
this struct occupies 20 bytes: node_id at offset 0, event_type at 1,
padding at 2 and 3, trap_count at 4, battery_voltage at 8, route_hops
at 12, padding at 13 to 15, timestamp at 16.  The node sends the struct
with esp_now_send((uint8_t *)&msg, sizeof(msg)); the gateway rejects any
frame whose length differs from sizeof(TrapMessage) and otherwise
memcpys the bytes back into the struct. -/

structure TrapMessage where
  node_id : Nat
  event_type : Nat
  trap_count : Nat
  battery_voltage : Nat
  route_hops : Nat
  timestamp : Nat
deriving DecidableEq, Repr

/-- Field bounds of the C struct: the two id bytes and route_hops are
uint8_t, the counter, the float bit pattern and the timestamp are 32
bits wide. -/
def TrapMessage.Wf (m : TrapMessage) : Prop :=
  m.node_id < 256 ∧ m.event_type < 256 ∧ m.trap_count < 4294967296 ∧
  m.battery_voltage < 4294967296 ∧ m.route_hops < 256 ∧ m.timestamp < 4294967296

instance (m : TrapMessage) : Decidable m.Wf := by
  unfold TrapMessage.Wf; infer_instance

/-- Byte image of the struct as sent over the radio: the little-endian
bytes of each field at its offset, with the alignment padding bytes
written as 0. -/
def encodeMsg (m : TrapMessage) : List Nat :=
  [m.node_id, m.event_type, 0, 0,
   m.trap_count % 256, m.trap_count / 256 % 256,
   m.trap_count / 65536 % 256, m.trap_count / 16777216 % 256,
   m.battery_voltage % 256, m.battery_voltage / 256 % 256,
   m.battery_voltage / 65536 % 256, m.battery_voltage / 16777216 % 256,
   m.route_hops, 0, 0, 0,
   m.timestamp % 256, m.timestamp / 256 % 256,
   m.timestamp / 65536 % 256, m.timestamp / 16777216 % 256]

/-- Byte access helper for decoding (the length guard of decodeMsg keeps
every used index in range). -/
def byteAt (bs : List Nat) (i : Nat) : Nat := bs.getD i 0

/-- Gateway-side decoding, from onDataReceive: if (len != sizeof(TrapMessage))
return; else memcpy(&msg, data, sizeof(msg)).  A frame of any other
length is rejected outright and no message value is produced. -/
def decodeMsg (bs : List Nat) : Option TrapMessage :=
  if bs.length = 20 then
    some { node_id := byteAt bs 0
           event_type := byteAt bs 1
           trap_count := byteAt bs 4 + 256 * byteAt bs 5 +
             65536 * byteAt bs 6 + 16777216 * byteAt bs 7
           battery_voltage := byteAt bs 8 + 256 * byteAt bs 9 +
             65536 * byteAt bs 10 + 16777216 * byteAt bs 11
           route_hops := byteAt bs 12
           timestamp := byteAt bs 16 + 256 * byteAt bs 17 +
             65536 * byteAt bs 18 + 16777216 * byteAt bs 19 }
  else none

/-! ## Node transport (trap-node.ino, sendMessage)

  messageSent = false;
  esp_err_t result = esp_now_send(gatewayMAC, (uint8_t *)&msg, sizeof(msg));
  if (result == ESP_OK) \x7b
    unsigned long startTime = millis();
    while (!messageSent && (millis() - startTime < 1000)) \x7b delay(10); \x7d
    return messageSent;
  \x7d else \x7b return false; \x7d

messageSent is set to true by the onDataSent callback.  We model the
callback arrival as an optional tick count: confirm = some t means the
callback fires t ticks after startTime, confirm = none means it never
fires.  The polling loop advances 10 ticks per iteration and checks the
flag and the 1000-tick deadline; 101 iterations cover ticks 0 to 1000. -/

/-- Truth of the messageSent flag at a given elapsed tick: the callback
has fired iff its arrival tick is at most the elapsed time. -/
def isConfirmed (confirm : Option Nat) (elapsed : Nat) : Bool :=
  match confirm with
  | some t => t ≤ elapsed
  | none => false

/-- Polling loop of sendMessage: exit with true as soon as the flag is
set, keep waiting in 10-tick steps while elapsed < 1000, otherwise give
up with the flag still false. -/
def waitLoop (confirm : Option Nat) : Nat → Nat → Bool
  | 0, elapsed => isConfirmed confirm elapsed
  | fuel + 1, elapsed =>
    if isConfirmed confirm elapsed then true
    else if elapsed < 1000 then waitLoop confirm fuel (elapsed + 10)
    else false

/-- sendMessage: false when the underlying esp_now_send call does not
return ESP_OK, otherwise the result of the bounded confirmation wait. -/
def sendMessage (sendOk : Bool) (confirm : Option Nat) : Bool :=
  if sendOk then waitLoop confirm 101 0 else false

theorem waitLoop_none (fuel elapsed : Nat) :
    waitLoop none fuel elapsed = false := by
  induction fuel generalizing elapsed with
  | zero => rfl
  | succ n ih =>
    unfold waitLoop
    simp [isConfirmed]
    intro _
    exact ih _

theorem waitLoop_some (t : Nat) :
    ∀ fuel elapsed, elapsed + 10 * fuel = 1010 → elapsed ≤ 1000 →
      (waitLoop (some t) fuel elapsed = true ↔ t ≤ 1000) := by
  intro fuel
  induction fuel with
  | zero => intro elapsed h1 h2; omega
  | succ n ih =>
    intro elapsed h1 h2
    unfold waitLoop
    by_cases hc : isConfirmed (some t) elapsed = true
    · simp only [hc, if_true]
      simp [isConfirmed] at hc
      constructor
      · intro _; omega
      · intro _; trivial
    · simp only [hc]
      simp [isConfirmed] at hc
      by_cases he : elapsed < 1000
      · have hmod : elapsed % 10 = 0 := by omega
        have := ih (elapsed + 10) (by omega) (by omega)
        simp only [Bool.false_eq_true, if_false, he, if_true]
        exact this
      · have : elapsed = 1000 := by omega
        simp only [Bool.false_eq_true, if_false, he]
        constructor
        · intro hcon; exact absurd hcon (by simp)
        · intro ht; omega

/-- C1: the node transport send returns true exactly when the underlying
send call succeeded and the send-confirmation callback arrives within
the 1000-tick bounded wait; it returns false on timeout (no callback)
and on a transport-layer send failure (send call not returning OK). -/
theorem sendMessage_true_iff (sendOk : Bool) (confirm : Option Nat) :
    sendMessage sendOk confirm = true ↔
      (sendOk = true ∧ ∃ t, confirm = some t ∧ t ≤ 1000) := by
  unfold sendMessage
  cases sendOk with
  | false => simp
  | true =>
    simp only [if_true, true_and]
    cases confirm with
    | none => simp [waitLoop_none]
    | some t =>
      rw [waitLoop_some t 101 0 (by omega) (by omega)]
      constructor
      · intro h; exact ⟨t, rfl, h⟩
      · rintro ⟨u, hu, hle⟩; cases hu; exact hle

/-- C1 witness: a confirmation arriving at tick 500 yields true, and a
send with a failed underlying call yields false. -/
theorem sendMessage_true_iff_witness :
    sendMessage true (some 500) = true ∧ sendMessage false (some 0) = false :=
  ⟨(sendMessage_true_iff true (some 500)).mpr ⟨rfl, 500, rfl, by omega⟩,
   by
    cases hc : sendMessage false (some 0) with
    | false => rfl
    | true =>
      have := (sendMessage_true_iff false (some 0)).mp hc
      exact absurd this.1 (by simp)⟩

theorem encodeMsg_length (m : TrapMessage) : (encodeMsg m).length = 20 := by
  simp [encodeMsg]

theorem u32_recompose (n : Nat) (h : n < 4294967296) :
    n % 256 + 256 * (n / 256 % 256) + 65536 * (n / 65536 % 256) +
      16777216 * (n / 16777216 % 256) = n := by
  have e1 : n / 65536 = n / 256 / 256 := by
    rw [Nat.div_div_eq_div_mul]
  have e2 : n / 16777216 = n / 256 / 256 / 256 := by
    rw [Nat.div_div_eq_div_mul, Nat.div_div_eq_div_mul]
  rw [e1, e2]
  omega

theorem decodeMsg_encodeMsg (m : TrapMessage) (hm : m.Wf) :
    decodeMsg (encodeMsg m) = some m := by
  obtain ⟨h1, h2, h3, h4, h5, h6⟩ := hm
  unfold decodeMsg
  rw [if_pos (encodeMsg_length m)]
  simp only [Option.some.injEq]
  cases m with
  | mk a b c d e f =>
    simp only [encodeMsg, byteAt]
    simp only [List.getD_cons_zero, List.getD_cons_succ]
    simp only [TrapMessage.mk.injEq]
    exact ⟨trivial, trivial, u32_recompose c h3, u32_recompose d h4,
      trivial, u32_recompose f h6⟩

theorem decodeMsg_badLength (bs : List Nat) (hbs : bs.length ≠ 20) :
    decodeMsg bs = none := by
  unfold decodeMsg
  rw [if_neg hbs]

/-- C2: the codec round-trip law.  Encoding a well-formed event message
to its 20-byte frame and decoding that frame recovers a message equal
in every field (node_id, event_type, trap_count, battery_voltage,
route_hops, timestamp); and every byte sequence whose length is not the
fixed message size decodes to a rejection (none), never to a partially
populated message. -/
theorem codec_roundtrip_and_length_guard :
    (∀ m : TrapMessage, m.Wf → decodeMsg (encodeMsg m) = some m) ∧
    (∀ bs : List Nat, bs.length ≠ 20 → decodeMsg bs = none) :=
  ⟨decodeMsg_encodeMsg, decodeMsg_badLength⟩

/-- C2 witness: a concrete round trip and a concrete short frame
rejection. -/
theorem codec_roundtrip_witness :
    decodeMsg (encodeMsg ⟨1, 1, 5, 1079613522, 0, 123456⟩) =
      some ⟨1, 1, 5, 1079613522, 0, 123456⟩ ∧
    decodeMsg [1, 2, 3] = none :=
  ⟨codec_roundtrip_and_length_guard.1 ⟨1, 1, 5, 1079613522, 0, 123456⟩
      (by constructor <;> simp),
   codec_roundtrip_and_length_guard.2 [1, 2, 3] (by simp)⟩

/-! ## Gateway bridge (gateway firmware)

The gateway keeps a broker connection flag and two process-lifetime
counters (messagesReceived, messagesForwarded).  Its observable actions
are modelled as a trace of events: connection attempts, fixed delays,
and broker publishes.  External nondeterminism is passed in explicitly:
outcomes i tells whether the i-th connection attempt of a reconnect
call succeeds, publishOk tells whether the broker accepts a publish
call, gwTime is the value of millis() at forwarding time. -/

/-- Payload of a broker publish.  The forwarded JSON document of
forwardToMQTT is modelled structurally by its fields, in the order the
code sets them; onlineStatus is the fixed online document published by
reconnectMQTT on success. -/
inductive MqttDoc where
  | onlineStatus : MqttDoc
  | event (node_id event_type : Nat) (event_type_str : String)
      (trap_count battery_voltage route_hops timestamp gateway_time : Nat)
      (mac_address : List Nat) : MqttDoc
deriving DecidableEq, Repr

/-- Observable gateway actions. -/
inductive GwEvent where
  | attempt (ok : Bool) : GwEvent
  | delayMs (n : Nat) : GwEvent
  | pub (topic : String) (payload : MqttDoc) : GwEvent
deriving DecidableEq, Repr

/-- Gateway runtime state: broker connection flag and the two counters. -/
structure GwState where
  connected : Bool
  messagesReceived : Nat
  messagesForwarded : Nat
deriving DecidableEq, Repr

/-- Event type name used in the topic and the payload, from the switch
in forwardToMQTT: 0, 1, 2 map to the three names, everything else to
unknown. -/
def eventTypeStr : Nat → String
  | 0 => "status"
  | 1 => "trigger"
  | 2 => "low_battery"
  | _ => "unknown"

/-- Body of the reconnectMQTT while loop: while not connected and
attempts < 5, try to connect; on success publish the online status and
return at once; on failure delay 5000 ms and count the attempt.  fuel
is 5 minus the attempts already made, i numbers the attempt. -/
def reconnectAux (outcomes : Nat → Bool) : Nat → Nat → Bool × List GwEvent
  | 0, _ => (false, [])
  | fuel + 1, i =>
    if outcomes i then
      (true, [GwEvent.attempt true,
        GwEvent.pub "gateway/status" MqttDoc.onlineStatus])
    else
      let r := reconnectAux outcomes fuel (i + 1)
      (r.1, GwEvent.attempt false :: GwEvent.delayMs 5000 :: r.2)

/-- reconnectMQTT: a no-op when already connected, otherwise up to five
connection attempts. -/
def reconnectMQTT (outcomes : Nat → Bool) (connected : Bool) :
    Bool × List GwEvent :=
  if connected then (true, []) else reconnectAux outcomes 5 0

/-- forwardToMQTT: reconnect if the broker connection is down; if still
down afterwards, return without publishing (the message is dropped, not
queued); otherwise issue exactly one publish on topic
trap/<node_id>/<event_type_name> with the full JSON document, and bump
messagesForwarded only if the broker accepted the publish. -/
def forwardToMQTT (outcomes : Nat → Bool) (publishOk : Bool) (gwTime : Nat)
    (s : GwState) (msg : TrapMessage) (mac : List Nat) :
    GwState × List GwEvent :=
  let r := if s.connected then (true, ([] : List GwEvent))
           else reconnectMQTT outcomes false
  if r.1 then
    let name := eventTypeStr msg.event_type
    let topic := "trap/" ++ Nat.repr msg.node_id ++ "/" ++ name
    let doc := MqttDoc.event msg.node_id msg.event_type name msg.trap_count
      msg.battery_voltage msg.route_hops msg.timestamp gwTime mac
    if publishOk then
      ({ connected := true, messagesReceived := s.messagesReceived,
         messagesForwarded := s.messagesForwarded + 1 },
       r.2 ++ [GwEvent.pub topic doc])
    else
      ({ connected := true, messagesReceived := s.messagesReceived,
         messagesForwarded := s.messagesForwarded },
       r.2 ++ [GwEvent.pub topic doc])
  else
    ({ s with connected := false }, r.2)

/-- onDataReceive: every incoming radio frame bumps messagesReceived
first; a frame whose length is not sizeof(TrapMessage) is then rejected
with an early return, anything else is decoded and handed to
forwardToMQTT. -/
def onDataReceive (outcomes : Nat → Bool) (publishOk : Bool) (gwTime : Nat)
    (s : GwState) (mac : List Nat) (data : List Nat) :
    GwState × List GwEvent :=
  let s1 : GwState := { s with messagesReceived := s.messagesReceived + 1 }
  match decodeMsg data with
  | none => (s1, [])
  | some msg => forwardToMQTT outcomes publishOk gwTime s1 msg mac

/-- Number of connection attempts in a trace. -/
def countAttempts : List GwEvent → Nat
  | [] => 0
  | GwEvent.attempt _ :: rest => countAttempts rest + 1
  | _ :: rest => countAttempts rest

/-- Number of broker publishes in a trace. -/
def countPubs : List GwEvent → Nat
  | [] => 0
  | GwEvent.pub _ _ :: rest => countPubs rest + 1
  | _ :: rest => countPubs rest

/-- Trace left by n consecutive failed connection attempts: each failed
attempt is followed by the fixed 5000 ms delay. -/
def failTrace : Nat → List GwEvent
  | 0 => []
  | n + 1 => GwEvent.attempt false :: GwEvent.delayMs 5000 :: failTrace n

theorem reconnectAux_allFail (outcomes : Nat → Bool) :
    ∀ fuel i, (∀ j, j < fuel → outcomes (i + j) = false) →
      reconnectAux outcomes fuel i = (false, failTrace fuel) := by
  intro fuel
  induction fuel with
  | zero => intro i _; rfl
  | succ n ih =>
    intro i h
    have h0 : outcomes i = false := by
      have := h 0 (by omega); simpa using this
    unfold reconnectAux
    rw [h0]
    simp only [Bool.false_eq_true, if_false]
    have := ih (i + 1) (fun j hj => by
      have := h (j + 1) (by omega)
      simpa [Nat.add_assoc, Nat.add_comm 1 j] using this)
    rw [this]
    rfl

theorem reconnectAux_firstSuccess (outcomes : Nat → Bool) :
    ∀ k fuel i, k < fuel → (∀ j, j < k → outcomes (i + j) = false) →
      outcomes (i + k) = true →
      reconnectAux outcomes fuel i =
        (true, failTrace k ++ [GwEvent.attempt true,
          GwEvent.pub "gateway/status" MqttDoc.onlineStatus]) := by
  intro k
  induction k with
  | zero =>
    intro fuel i hk _ hs
    match fuel, hk with
    | fuel + 1, _ =>
      unfold reconnectAux
      simp only [Nat.add_zero] at hs
      rw [hs]
      rfl
  | succ n ih =>
    intro fuel i hk hfail hs
    match fuel, hk with
    | fuel + 1, _ =>
      have h0 : outcomes i = false := by
        have := hfail 0 (by omega); simpa using this
      unfold reconnectAux
      rw [h0]
      simp only [Bool.false_eq_true, if_false]
      have := ih fuel (i + 1) (by omega)
        (fun j hj => by
          have := hfail (j + 1) (by omega)
          simpa [Nat.add_assoc, Nat.add_comm 1 j] using this)
        (by
          have : i + 1 + n = i + (n + 1) := by omega
          rw [this]; exact hs)
      rw [this]
      rfl

theorem countAttempts_reconnectAux (outcomes : Nat → Bool) :
    ∀ fuel i, countAttempts (reconnectAux outcomes fuel i).2 ≤ fuel := by
  intro fuel
  induction fuel with
  | zero => intro i; simp [reconnectAux, countAttempts]
  | succ n ih =>
    intro i
    unfold reconnectAux
    by_cases h : outcomes i = true
    · rw [h]; simp [countAttempts]
    · simp only [h]
      simp only [Bool.false_eq_true, if_false, countAttempts]
      have := ih (i + 1)
      omega

theorem countPubs_failTrace (n : Nat) : countPubs (failTrace n) = 0 := by
  induction n with
  | zero => rfl
  | succ k ih => simp [failTrace, countPubs, ih]

/-- C9: the broker reconnection routine, entered while disconnected,
makes at most 5 connection attempts; if all 5 fail it gives up still
disconnected, having waited the fixed 5000 ms delay after each failed
attempt (trace failTrace 5); if attempt k is the first to succeed it
returns immediately after that attempt, with exactly k + 1 attempts
made and the fixed delay between consecutive failed attempts. -/
theorem reconnectMQTT_bounded :
    (∀ (outcomes : Nat → Bool) (c : Bool),
      countAttempts (reconnectMQTT outcomes c).2 ≤ 5) ∧
    (∀ outcomes : Nat → Bool, (∀ j, j < 5 → outcomes j = false) →
      reconnectMQTT outcomes false = (false, failTrace 5)) ∧
    (∀ (outcomes : Nat → Bool) (k : Nat), k < 5 →
      (∀ j, j < k → outcomes j = false) → outcomes k = true →
      reconnectMQTT outcomes false =
        (true, failTrace k ++ [GwEvent.attempt true,
          GwEvent.pub "gateway/status" MqttDoc.onlineStatus])) := by
  refine ⟨?_, ?_, ?_⟩
  · intro outcomes c
    unfold reconnectMQTT
    cases c with
    | false => simpa using countAttempts_reconnectAux outcomes 5 0
    | true => simp [countAttempts]
  · intro outcomes h
    unfold reconnectMQTT
    simp only [Bool.false_eq_true, if_false]
    exact reconnectAux_allFail outcomes 5 0 (fun j hj => by simpa using h j hj)
  · intro outcomes k hk hfail hs
    unfold reconnectMQTT
    simp only [Bool.false_eq_true, if_false]
    exact reconnectAux_firstSuccess outcomes k 5 0 hk
      (fun j hj => by simpa using hfail j hj) (by simpa using hs)

/-- C9 witness: all attempts failing gives exactly five attempts and a
disconnected result; first success at attempt 2 stops after three
attempts. -/
theorem reconnectMQTT_bounded_witness :
    countAttempts (reconnectMQTT (fun _ => false) false).2 ≤ 5 ∧
    reconnectMQTT (fun _ => false) false = (false, failTrace 5) ∧
    reconnectMQTT (fun i => decide (i = 2)) false =
      (true, failTrace 2 ++ [GwEvent.attempt true,
        GwEvent.pub "gateway/status" MqttDoc.onlineStatus]) :=
  ⟨reconnectMQTT_bounded.1 (fun _ => false) false,
   reconnectMQTT_bounded.2.1 (fun _ => false) (fun j _ => rfl),
   reconnectMQTT_bounded.2.2 (fun i => decide (i = 2)) 2 (by omega)
     (by decide) (by decide)⟩

/-- C3: a valid decoded message (event_type one of 0, 1, 2) arriving
while the gateway is connected yields exactly one broker publish, on
topic trap/<node_id>/<event_type_name> with the name drawn from status,
trigger, low_battery, and the payload carries every event message field
plus the gateway receipt time and the source radio address; the receive
counter also bumps by one. -/
theorem gateway_connected_publish
    (outcomes : Nat → Bool) (publishOk : Bool) (gwTime : Nat) (s : GwState)
    (mac : List Nat) (msg : TrapMessage)
    (hconn : s.connected = true) (hwf : msg.Wf) (het : msg.event_type < 3) :
    (onDataReceive outcomes publishOk gwTime s mac (encodeMsg msg)).2 =
      [GwEvent.pub
        ("trap/" ++ Nat.repr msg.node_id ++ "/" ++ eventTypeStr msg.event_type)
        (MqttDoc.event msg.node_id msg.event_type (eventTypeStr msg.event_type)
          msg.trap_count msg.battery_voltage msg.route_hops msg.timestamp
          gwTime mac)] ∧
    (eventTypeStr msg.event_type = "status" ∨
      eventTypeStr msg.event_type = "trigger" ∨
      eventTypeStr msg.event_type = "low_battery") ∧
    (onDataReceive outcomes publishOk gwTime s mac
      (encodeMsg msg)).1.messagesReceived = s.messagesReceived + 1 := by
  have hname : eventTypeStr msg.event_type = "status" ∨
      eventTypeStr msg.event_type = "trigger" ∨
      eventTypeStr msg.event_type = "low_battery" := by
    have h3 : msg.event_type = 0 ∨ msg.event_type = 1 ∨ msg.event_type = 2 := by
      omega
    rcases h3 with h | h | h <;> rw [h] <;> simp [eventTypeStr]
  refine ⟨?_, hname, ?_⟩ <;>
  · simp only [onDataReceive, decodeMsg_encodeMsg msg hwf]
    simp only [forwardToMQTT, hconn]
    cases publishOk <;> simp

/-- C3 witness: a concrete trigger message through a connected gateway. -/
theorem gateway_connected_publish_witness :
    (onDataReceive (fun _ => false) true 77 ⟨true, 3, 4⟩
      [170, 187, 204, 221, 238, 255] (encodeMsg ⟨1, 1, 5, 0, 0, 9⟩)).2 =
      [GwEvent.pub ("trap/" ++ Nat.repr 1 ++ "/" ++ eventTypeStr 1)
        (MqttDoc.event 1 1 (eventTypeStr 1) 5 0 0 9 77
          [170, 187, 204, 221, 238, 255])] ∧
    (eventTypeStr 1 = "status" ∨ eventTypeStr 1 = "trigger" ∨
      eventTypeStr 1 = "low_battery") ∧
    (onDataReceive (fun _ => false) true 77 ⟨true, 3, 4⟩
      [170, 187, 204, 221, 238, 255]
      (encodeMsg ⟨1, 1, 5, 0, 0, 9⟩)).1.messagesReceived = 3 + 1 :=
  gateway_connected_publish (fun _ => false) true 77 ⟨true, 3, 4⟩
    [170, 187, 204, 221, 238, 255] ⟨1, 1, 5, 0, 0, 9⟩ rfl (by decide) (by decide)

/-- C4: a radio frame arriving while the broker connection is down (and
every reconnection attempt fails) still bumps messagesReceived, issues
zero publishes (the message is dropped, not queued), and leaves
messagesForwarded unchanged. -/
theorem gateway_disconnected_drop
    (outcomes : Nat → Bool) (publishOk : Bool) (gwTime : Nat) (s : GwState)
    (mac data : List Nat)
    (hconn : s.connected = false) (hfail : ∀ j, outcomes j = false) :
    (onDataReceive outcomes publishOk gwTime s mac data).1.messagesReceived
        = s.messagesReceived + 1 ∧
    countPubs (onDataReceive outcomes publishOk gwTime s mac data).2 = 0 ∧
    (onDataReceive outcomes publishOk gwTime s mac data).1.messagesForwarded
        = s.messagesForwarded := by
  have hrec : reconnectMQTT outcomes false = (false, failTrace 5) := by
    unfold reconnectMQTT
    simp only [Bool.false_eq_true, if_false]
    exact reconnectAux_allFail outcomes 5 0 (fun j _ => hfail _)
  unfold onDataReceive
  cases hdec : decodeMsg data with
  | none => simp [countPubs]
  | some msg =>
    simp only [forwardToMQTT, hconn, hrec]
    simp [countPubs_failTrace]

/-- C4 witness: a concrete valid frame through a disconnected gateway
whose broker stays down. -/
theorem gateway_disconnected_drop_witness :
    (onDataReceive (fun _ => false) true 0 ⟨false, 10, 7⟩ [1, 2, 3, 4, 5, 6]
      (encodeMsg ⟨1, 1, 5, 0, 0, 9⟩)).1.messagesReceived = 10 + 1 ∧
    countPubs (onDataReceive (fun _ => false) true 0 ⟨false, 10, 7⟩
      [1, 2, 3, 4, 5, 6] (encodeMsg ⟨1, 1, 5, 0, 0, 9⟩)).2 = 0 ∧
    (onDataReceive (fun _ => false) true 0 ⟨false, 10, 7⟩ [1, 2, 3, 4, 5, 6]
      (encodeMsg ⟨1, 1, 5, 0, 0, 9⟩)).1.messagesForwarded = 7 :=
  gateway_disconnected_drop (fun _ => false) true 0 ⟨false, 10, 7⟩
    [1, 2, 3, 4, 5, 6] (encodeMsg ⟨1, 1, 5, 0, 0, 9⟩) rfl (fun _ => rfl)

theorem eventTypeStr_of_ge (n : Nat) (h : 3 ≤ n) :
    eventTypeStr n = "unknown" := by
  match n, h with
  | n + 3, _ => rfl

/-- C5 counterexample: the claim that every malformed frame is dropped
with no gateway state change and is never forwarded is false on the
code.  First, a 2-byte frame (wrong length) arriving at a connected
gateway bumps messagesReceived from 0 to 1, because onDataReceive
increments the counter before the length check.  Second, a frame of the
correct 20-byte length whose event_type is 7 (invalid) is not dropped:
the connected gateway issues a broker publish for it. -/
theorem gateway_malformed_counterexample :
    (onDataReceive (fun _ => false) true 0 ⟨true, 0, 0⟩
      [1, 2, 3, 4, 5, 6] [9, 9]).1.messagesReceived = 1 ∧
    countPubs (onDataReceive (fun _ => false) true 0 ⟨true, 0, 0⟩
      [1, 2, 3, 4, 5, 6] (encodeMsg ⟨1, 7, 0, 0, 0, 0⟩)).2 = 1 := by
  constructor <;> rfl

/-- C5 amended: a frame of wrong byte length is never forwarded (no
publish is issued and messagesForwarded is unchanged) but it is not
state-free: messagesReceived increments for every frame, malformed ones
included.  A frame of the correct length whose event_type is not 0, 1
or 2 is not dropped at all: the connected gateway decodes it and
forwards it with event type name unknown. -/
theorem gateway_malformed_amended :
    (∀ (outcomes : Nat → Bool) (publishOk : Bool) (gwTime : Nat)
      (s : GwState) (mac data : List Nat), data.length ≠ 20 →
      (onDataReceive outcomes publishOk gwTime s mac data).2 = [] ∧
      (onDataReceive outcomes publishOk gwTime s mac data).1 =
        { s with messagesReceived := s.messagesReceived + 1 }) ∧
    (∀ (outcomes : Nat → Bool) (publishOk : Bool) (gwTime : Nat)
      (s : GwState) (mac : List Nat) (msg : TrapMessage),
      s.connected = true → msg.Wf → 3 ≤ msg.event_type →
      (onDataReceive outcomes publishOk gwTime s mac (encodeMsg msg)).2 =
        [GwEvent.pub ("trap/" ++ Nat.repr msg.node_id ++ "/" ++ "unknown")
          (MqttDoc.event msg.node_id msg.event_type "unknown" msg.trap_count
            msg.battery_voltage msg.route_hops msg.timestamp gwTime mac)]) := by
  constructor
  · intro outcomes publishOk gwTime s mac data hlen
    unfold onDataReceive
    rw [decodeMsg_badLength data hlen]
    exact ⟨rfl, rfl⟩
  · intro outcomes publishOk gwTime s mac msg hconn hwf het
    simp only [onDataReceive, decodeMsg_encodeMsg msg hwf]
    simp only [forwardToMQTT, hconn, eventTypeStr_of_ge msg.event_type het]
    cases publishOk <;> simp

/-- C5 amended witness: a concrete 2-byte frame is not forwarded but
bumps messagesReceived; a concrete event_type 7 frame is forwarded under
the unknown name. -/
theorem gateway_malformed_amended_witness :
    ((onDataReceive (fun _ => false) true 0 ⟨true, 2, 2⟩
        [1, 2, 3, 4, 5, 6] [9, 9]).2 = [] ∧
      (onDataReceive (fun _ => false) true 0 ⟨true, 2, 2⟩
        [1, 2, 3, 4, 5, 6] [9, 9]).1 = ⟨true, 3, 2⟩) ∧
    (onDataReceive (fun _ => false) true 5 ⟨true, 0, 0⟩
      [1, 2, 3, 4, 5, 6] (encodeMsg ⟨2, 7, 1, 0, 0, 4⟩)).2 =
      [GwEvent.pub ("trap/" ++ Nat.repr 2 ++ "/" ++ "unknown")
        (MqttDoc.event 2 7 "unknown" 1 0 0 4 5 [1, 2, 3, 4, 5, 6])] :=
  ⟨gateway_malformed_amended.1 (fun _ => false) true 0 ⟨true, 2, 2⟩
      [1, 2, 3, 4, 5, 6] [9, 9] (by decide),
   gateway_malformed_amended.2 (fun _ => false) true 5 ⟨true, 0, 0⟩
      [1, 2, 3, 4, 5, 6] ⟨2, 7, 1, 0, 0, 4⟩ rfl (by decide) (by decide)⟩

/-! ## Node wake scheduler (trap-node.ino, setup)

One wake cycle of the node, from the wake-cause branch of setup.  The
retained RTC_DATA_ATTR variables trapCount, wakeCount, lastTriggerTime
survive deep sleep and are threaded through as explicit state; they are
lost only on full power loss, which in this model is starting a run
from a fresh initial state.  The sampled battery voltage is a rational
input (the code compares a float reading against the 3.3 V threshold;
only the comparison outcome feeds the branch).  The returned list holds
the event types the cycle sends: 0 status, 1 trigger, 2 low battery. -/

/-- Wake cause, from esp_sleep_get_wakeup_cause: ext0 is the reed-line
edge interrupt, timer covers the periodic timer and power-on. -/
inductive WakeCause where
  | ext0 : WakeCause
  | timer : WakeCause
deriving DecidableEq, Repr

/-- Retained node state (RTC_DATA_ATTR globals). -/
structure NodeState where
  trapCount : Nat
  wakeCount : Nat
  lastTriggerTime : Nat
deriving DecidableEq, Repr

/-- One wake cycle: on an ext0 wake the node increments trapCount,
records the trigger time and sends a trigger message; on a timer wake
it sends one message only when wakeCount is a multiple of
BATTERY_CHECK_INTERVAL = 10, low battery when the sampled voltage is
below 3.3, status otherwise; wakeCount increments at the end of every
cycle. -/
def wakeCycle (s : NodeState) (cause : WakeCause) (voltage : ℚ) (now : Nat) :
    NodeState × List Nat :=
  match cause with
  | WakeCause.ext0 =>
    ({ trapCount := s.trapCount + 1, wakeCount := s.wakeCount + 1,
       lastTriggerTime := now }, [1])
  | WakeCause.timer =>
    ({ s with wakeCount := s.wakeCount + 1 },
     if s.wakeCount % 10 = 0 then
       if voltage < 33 / 10 then [2] else [0]
     else [])

/-- A sequence of wake cycles with the retained state threaded through
sleep. -/
def runNode (s : NodeState) : List (WakeCause × ℚ × Nat) → NodeState
  | [] => s
  | (c, v, t) :: rest => runNode (wakeCycle s c v t).1 rest

/-- Number of ext0 (trigger) wakes in a wake sequence. -/
def countTriggers : List (WakeCause × ℚ × Nat) → Nat
  | [] => 0
  | (WakeCause.ext0, _, _) :: rest => countTriggers rest + 1
  | (WakeCause.timer, _, _) :: rest => countTriggers rest

/-- C6: trapCount increases by exactly 1 on a trigger (ext0) wake and
by 0 on any other wake; across any sequence of wake cycles of one node
identity the retained counter ends at its start value plus the number
of trigger wakes, hence is non-decreasing; it is never reset within a
run (only starting a fresh run, i.e. full power loss, resets it). -/
theorem trapCount_monotone_exact :
    (∀ (s : NodeState) (v : ℚ) (t : Nat),
      (wakeCycle s WakeCause.ext0 v t).1.trapCount = s.trapCount + 1 ∧
      (wakeCycle s WakeCause.timer v t).1.trapCount = s.trapCount) ∧
    (∀ (s : NodeState) (l : List (WakeCause × ℚ × Nat)),
      (runNode s l).trapCount = s.trapCount + countTriggers l ∧
      s.trapCount ≤ (runNode s l).trapCount) := by
  have hstep : ∀ (s : NodeState) (v : ℚ) (t : Nat),
      (wakeCycle s WakeCause.ext0 v t).1.trapCount = s.trapCount + 1 ∧
      (wakeCycle s WakeCause.timer v t).1.trapCount = s.trapCount := by
    intro s v t
    exact ⟨rfl, rfl⟩
  refine ⟨hstep, ?_⟩
  intro s l
  induction l generalizing s with
  | nil => simp [runNode, countTriggers]
  | cons x rest ih =>
    obtain ⟨c, v, t⟩ := x
    cases c with
    | ext0 =>
      have := ih (wakeCycle s WakeCause.ext0 v t).1
      simp only [runNode, countTriggers] at *
      constructor
      · rw [this.1, (hstep s v t).1]; omega
      · have h1 := (hstep s v t).1
        omega
    | timer =>
      have := ih (wakeCycle s WakeCause.timer v t).1
      simp only [runNode, countTriggers] at *
      constructor
      · rw [this.1, (hstep s v t).2]
      · have h1 := (hstep s v t).2
        omega

/-- C6 witness: three wakes (trigger, timer, trigger) take the counter
from 4 to 6. -/
theorem trapCount_monotone_exact_witness :
    (runNode ⟨4, 0, 0⟩ [(WakeCause.ext0, 4, 1), (WakeCause.timer, 4, 2),
      (WakeCause.ext0, 4, 3)]).trapCount = 4 + 2 ∧
    4 ≤ (runNode ⟨4, 0, 0⟩ [(WakeCause.ext0, 4, 1), (WakeCause.timer, 4, 2),
      (WakeCause.ext0, 4, 3)]).trapCount :=
  trapCount_monotone_exact.2 ⟨4, 0, 0⟩
    [(WakeCause.ext0, 4, 1), (WakeCause.timer, 4, 2), (WakeCause.ext0, 4, 3)]

/-- C7: on a timer wake the node sends a message only when wakeCount is
a multiple of 10; on such a wake it sends low battery (and not status)
exactly when the sampled voltage is below the 3.3 threshold, status
otherwise; it never sends both status and low battery in one wake. -/
theorem node_timer_wake (s : NodeState) (v : ℚ) (t : Nat) :
    ((wakeCycle s WakeCause.timer v t).2 ≠ [] → s.wakeCount % 10 = 0) ∧
    (s.wakeCount % 10 = 0 → v < 33 / 10 →
      (wakeCycle s WakeCause.timer v t).2 = [2]) ∧
    (s.wakeCount % 10 = 0 → ¬ v < 33 / 10 →
      (wakeCycle s WakeCause.timer v t).2 = [0]) ∧
    ¬ ((0 : Nat) ∈ (wakeCycle s WakeCause.timer v t).2 ∧
       (2 : Nat) ∈ (wakeCycle s WakeCause.timer v t).2) := by
  by_cases h10 : s.wakeCount % 10 = 0
  · by_cases hv : v < 33 / 10
    · refine ⟨fun _ => h10, fun _ _ => ?_, fun _ hv2 => absurd hv hv2, ?_⟩
      · simp [wakeCycle, h10, hv]
      · simp [wakeCycle, h10, hv]
    · refine ⟨fun _ => h10, fun _ hv2 => absurd hv2 hv, fun _ _ => ?_, ?_⟩
      · simp [wakeCycle, h10, hv]
      · simp [wakeCycle, h10, hv]
  · refine ⟨fun hne => ?_, fun h => absurd h h10, fun h => absurd h h10, ?_⟩
    · exact absurd (by simp [wakeCycle, h10]) hne
    · simp [wakeCycle, h10]

/-- C7 witness: at wake count 10, a 3.0 V sample sends low battery and
a 4.0 V sample sends status. -/
theorem node_timer_wake_witness :
    (wakeCycle ⟨0, 10, 0⟩ WakeCause.timer 3 0).2 = [2] ∧
    (wakeCycle ⟨0, 10, 0⟩ WakeCause.timer 4 0).2 = [0] :=
  ⟨(node_timer_wake ⟨0, 10, 0⟩ 3 0).2.1 (by decide) (by norm_num),
   (node_timer_wake ⟨0, 10, 0⟩ 4 0).2.2.1 (by decide) (by norm_num)⟩

/-- C10: on a timer wake whose wake count is not a multiple of 10 the
node sends nothing at all, whatever the sampled voltage; a low battery
is therefore only reported on the tenth-wake checkpoints. -/
theorem node_offcycle_silent (s : NodeState) (v : ℚ) (t : Nat)
    (h : s.wakeCount % 10 ≠ 0) :
    (wakeCycle s WakeCause.timer v t).2 = [] := by
  simp [wakeCycle, h]

/-- C10 witness: wake count 3 with a deeply discharged 1.0 V battery
still sends nothing. -/
theorem node_offcycle_silent_witness :
    (wakeCycle ⟨0, 3, 0⟩ WakeCause.timer 1 0).2 = [] :=
  node_offcycle_silent ⟨0, 3, 0⟩ 1 0 (by decide)

/-! ## Debounce detector (trap-node.ino, checkTrapTriggered)

State is the three tracked variables lastDebounceTime, lastReedState,
reedState (line levels as Bool, true = HIGH = open under the pull-up,
false = LOW = closed).  One call is one Sample: the call time, the raw
digitalRead value, and the second digitalRead taken after the
TRIGGER_STABLE_MS = 200 delay (an explicit input, since the line may
move during that wait).  The code mirrored:

  if (reading != lastReedState) lastDebounceTime = millis();
  if ((millis() - lastDebounceTime) > DEBOUNCE_MS)
    if (reading != reedState) \x7b
      reedState = reading;
      if (reedState == LOW) \x7b delay(200);
        if (digitalRead(pin) == LOW) return true; \x7d \x7d
  lastReedState = reading; return false;

Note the early return true skips the lastReedState update. -/

/-- Tracked variables of checkTrapTriggered. -/
structure DebState where
  lastDebounceTime : Nat
  lastReedState : Bool
  reedState : Bool
deriving DecidableEq, Repr

/-- One call of the detector: call time, raw reading, and the re-read
after the 200 ms stability wait. -/
structure Sample where
  time : Nat
  reading : Bool
  resample : Bool
deriving DecidableEq, Repr

/-- One call of checkTrapTriggered: returns the next state and whether
the call signalled Triggered. -/
def debStep (s : DebState) (x : Sample) : DebState × Bool :=
  let ldt := if x.reading ≠ s.lastReedState then x.time else s.lastDebounceTime
  if 50 < x.time - ldt then
    if x.reading ≠ s.reedState then
      if x.reading = false then
        if x.resample = false then
          ({ lastDebounceTime := ldt, lastReedState := s.lastReedState,
             reedState := false }, true)
        else
          ({ lastDebounceTime := ldt, lastReedState := x.reading,
             reedState := false }, false)
      else
        ({ lastDebounceTime := ldt, lastReedState := x.reading,
           reedState := true }, false)
    else
      ({ lastDebounceTime := ldt, lastReedState := x.reading,
         reedState := s.reedState }, false)
  else
    ({ lastDebounceTime := ldt, lastReedState := x.reading,
       reedState := s.reedState }, false)

/-- A sequence of detector calls, final state and per-call signals. -/
def debRun (s : DebState) : List Sample → DebState × List Bool
  | [] => (s, [])
  | x :: xs =>
    let r := debStep s x
    let rr := debRun r.1 xs
    (rr.1, r.2 :: rr.2)

/-- Number of Triggered signals in a run. -/
def countSig : List Bool → Nat
  | [] => 0
  | true :: rest => countSig rest + 1
  | false :: rest => countSig rest

/-- Number of calls in a run at which the confirmed state returns from
closed to open (the debounced closed-to-open transitions). -/
def countOpens (s : DebState) : List Sample → Nat
  | [] => 0
  | x :: xs =>
    (if s.reedState = false ∧ (debStep s x).1.reedState = true then 1 else 0) +
      countOpens (debStep s x).1 xs

theorem debStep_signal (s : DebState) (x : Sample)
    (h : (debStep s x).2 = true) :
    x.reading = s.lastReedState ∧ 50 < x.time - s.lastDebounceTime ∧
    s.reedState = true ∧ x.reading = false ∧ x.resample = false ∧
    (debStep s x).1.reedState = false := by
  rcases x with ⟨t, reading, resample⟩
  rcases s with ⟨ldt, lastRaw, confirmed⟩
  cases reading <;> cases resample <;> cases lastRaw <;> cases confirmed <;>
    simp_all [debStep] <;> split at h <;> simp_all

theorem debRun_count (s : DebState) (xs : List Sample) :
    countSig (debRun s xs).2 ≤
      countOpens s xs + (if s.reedState = true then 1 else 0) := by
  induction xs generalizing s with
  | nil => simp [debRun, countSig, countOpens]
  | cons x rest ih =>
    have hrec := ih (debStep s x).1
    simp only [debRun, countOpens]
    cases hsig : (debStep s x).2 with
    | true =>
      have hs := debStep_signal s x hsig
      have h1 : s.reedState = true := hs.2.2.1
      have h2 : (debStep s x).1.reedState = false := hs.2.2.2.2.2
      simp only [countSig, h1, h2] at hrec ⊢
      simp at hrec ⊢
      omega
    | false =>
      simp only [countSig]
      cases hc1 : s.reedState <;> cases hc2 : (debStep s x).1.reedState <;>
        simp only [hc1, hc2] at hrec ⊢ <;> simp at hrec ⊢ <;> omega

/-- C8: the debounce detector signals Triggered only on a call where
the raw reading equals the previous raw reading (the observed line has
not changed), more than the 50-tick debounce window has passed since
the last observed change, the confirmed state is still open, the
reading is closed and the re-sample taken after the 200 ms stability
wait is still closed; after a signal the confirmed state is closed.
Over any sample sequence whatever (bounded glitches included), the
number of signals never exceeds the number of debounced
closed-to-open returns plus one: the detector signals at most once per
closed-to-open-to-closed cycle and cannot re-signal until the line has
returned, debounced, to the open polarity. -/
theorem debounce_detector :
    (∀ (s : DebState) (x : Sample), (debStep s x).2 = true →
      x.reading = s.lastReedState ∧ 50 < x.time - s.lastDebounceTime ∧
      s.reedState = true ∧ x.reading = false ∧ x.resample = false ∧
      (debStep s x).1.reedState = false) ∧
    (∀ (s : DebState) (xs : List Sample),
      countSig (debRun s xs).2 ≤
        countOpens s xs + (if s.reedState = true then 1 else 0)) :=
  ⟨debStep_signal, debRun_count⟩

/-- C8 witness: a concrete signalling call in the initial open state,
and the signal bound on a concrete run. -/
theorem debounce_detector_witness :
    (debStep ⟨0, false, true⟩ ⟨100, false, false⟩).1.reedState = false ∧
    countSig (debRun ⟨0, false, true⟩ [⟨100, false, false⟩]).2 ≤
      countOpens ⟨0, false, true⟩ [⟨100, false, false⟩] + 1 :=
  ⟨(debounce_detector.1 ⟨0, false, true⟩ ⟨100, false, false⟩
      (by decide)).2.2.2.2.2,
   by simpa using debounce_detector.2 ⟨0, false, true⟩ [⟨100, false, false⟩]⟩

end SmartTrap
